import Mathlib

/-!
Shallow embedding of the MiniNewton 2D physics kernel.

All scene arithmetic is modelled over the rationals.  The JavaScript
primitive Math.sqrt is not rational-valued, so every embedded function
that calls it receives the square-root function as an explicit argument
sqrt : ℚ → ℚ; theorems that depend on the value of a square root carry
local hypotheses stating its defining equations at the arguments that
actually occur, and concrete evaluations instantiate it with ratSqrt,
which is exact on perfect squares.  Math.random is likewise an input: a
stream ℕ → ℚ of draws together with a cursor that advances exactly when
the source calls Math.random().
-/

namespace MiniNewton

/-- Exact square root on rationals whose numerator and denominator are
perfect squares; used to instantiate the square-root oracle on the
concrete inputs of witnesses and counterexamples. -/
def ratSqrt (q : ℚ) : ℚ :=
  (Nat.sqrt q.num.toNat : ℚ) / (Nat.sqrt q.den : ℚ)

/-- A 2D vector of scene coordinates, as the [x, y] pairs of the source. -/
structure Vec2 where
  x : ℚ
  y : ℚ
deriving DecidableEq

/-- The value of JavaScript Math.sign on a rational. -/
def jsSign (q : ℚ) : ℚ :=
  if 0 < q then 1 else if q < 0 then -1 else 0

/-!
## The Enhanced engine (MiniNewton_Enhanced.jsx)

Namespace `Enh` embeds the physics kernel of MiniNewton_Enhanced.jsx:
bodies with the three Newton body types, the per-body integration
pipeline, floor collision with tolerance and combined restitution,
AABB inter-body collision with impulse response, the four joint types,
and the frame loop of MiniNewton.simulate.  The source's contact
records store wall-clock timestamps; the embedding keeps only their
count (`frameContacts` is the length of the per-frame contacts array,
`contactCount` the cumulative total), which is all the simulation loop
itself reads.
-/
namespace Enh

/-- The BODY_TYPES of the source: dynamic, static, kinematic. -/
inductive BodyKind where
  | dynamic
  | static
  | kinematic
deriving DecidableEq

/-- A physics body as built by Physics.createBody in
MiniNewton_Enhanced.jsx (the After Effects layer reference and the
original transform, which the simulation loop never reads, are
omitted). -/
structure Body where
  kind : BodyKind
  position : Vec2
  velocity : Vec2
  acceleration : Vec2
  rotation : ℚ
  angularVelocity : ℚ
  angularAcceleration : ℚ
  mass : ℚ
  width : ℚ
  height : ℚ
  restitution : ℚ
  friction : ℚ
  isGrounded : Bool
  isSleeping : Bool
  sleepTimer : ℚ
  fixedRotation : Bool
  gravityScale : ℚ
  linearDamping : ℚ
  angularDamping : ℚ
  collisionGroup : ℕ
  collidesWith : ℕ
  frameContacts : ℕ
  contactCount : ℕ
deriving DecidableEq

/-- Global settings of the Enhanced engine that the simulation loop
reads. -/
structure Settings where
  gravityVector : Vec2
  bounce : ℚ
  floorY : ℚ
  duration : ℚ
  frameRate : ℚ
  damping : ℚ
  collisionTolerance : ℚ
  timeScale : ℚ
  enableInterBodyCollision : Bool
  enableSleeping : Bool
deriving DecidableEq

/-- The per-frame timestep: deltaTime = (1 / frameRate) * timeScale. -/
def Settings.dt (s : Settings) : ℚ :=
  1 / s.frameRate * s.timeScale

/-- The effective floor tolerance, `settings.collisionTolerance || 1.0`:
a zero setting (falsy in JavaScript) falls back to 1.0. -/
def Settings.tolEff (s : Settings) : ℚ :=
  if s.collisionTolerance = 0 then 1 else s.collisionTolerance

/-- Physics.applyGravity: dynamic bodies that are not held by the
grounded guard and have a nonzero gravity scale accumulate the scaled
gravity vector into their acceleration. -/
def applyGravity (b : Body) (gravityVector : Vec2) : Body :=
  if b.kind ≠ BodyKind.dynamic then b
  else if b.isGrounded ∧ 0 < gravityVector.y then b
  else if b.gravityScale = 0 then b
  else
    { b with acceleration :=
        ⟨b.acceleration.x + gravityVector.x * b.gravityScale,
         b.acceleration.y + gravityVector.y * b.gravityScale⟩ }

/-- Physics.applyDamping: global and per-body damping combined
multiplicatively, applied to linear and angular velocity. -/
def applyDamping (b : Body) (globalDamping : ℚ) : Body :=
  if b.kind ≠ BodyKind.dynamic then b
  else
    let totalLinear := globalDamping * (1 - b.linearDamping)
    let totalAngular := globalDamping * (1 - b.angularDamping)
    { b with
        velocity := ⟨b.velocity.x * totalLinear, b.velocity.y * totalLinear⟩,
        angularVelocity := b.angularVelocity * totalAngular }

/-- Physics.updatePosition: semi-implicit Euler integration; static
bodies and sleeping bodies return unchanged (so a sleeping body's
acceleration is neither integrated nor cleared). -/
def updatePosition (b : Body) (dt : ℚ) : Body :=
  if b.kind = BodyKind.static then b
  else if b.isSleeping then b
  else
    let v : Vec2 := ⟨b.velocity.x + b.acceleration.x * dt,
                     b.velocity.y + b.acceleration.y * dt⟩
    let av := b.angularVelocity + b.angularAcceleration * dt
    let p : Vec2 := ⟨b.position.x + v.x * dt, b.position.y + v.y * dt⟩
    let r := if b.fixedRotation then b.rotation else b.rotation + av * dt
    { b with
        velocity := v, angularVelocity := av, position := p, rotation := r,
        acceleration := ⟨0, 0⟩, angularAcceleration := 0 }

/-- Physics.checkFloorCollision of the Enhanced engine.  `rand` is the
value Math.random() would return for the impact jitter draw. -/
def checkFloorCollision (b : Body) (floorY globalBounce tolSetting rand : ℚ) :
    Body :=
  if b.kind = BodyKind.static then b
  else
    let bodyBottom := b.position.y + b.height / 2
    let tolerance := if tolSetting = 0 then 1 else tolSetting
    if floorY - tolerance ≤ bodyBottom then
      let b1 := { b with position := ⟨b.position.x, floorY - b.height / 2⟩ }
      let b2 :=
        if 0 < b1.velocity.y then
          let bounceForce := b1.restitution * globalBounce
          let b3 := { b1 with
              velocity := ⟨b1.velocity.x, -b1.velocity.y * bounceForce⟩,
              frameContacts := b1.frameContacts + 1,
              contactCount := b1.contactCount + 1 }
          let impactStrength := |b3.velocity.y|
          let b4 :=
            if b3.fixedRotation then b3
            else { b3 with angularVelocity :=
                     b3.angularVelocity + (rand - 1/2) * impactStrength * (1/10) }
          if |b4.velocity.y| < 5 then
            { b4 with velocity := ⟨b4.velocity.x, 0⟩, isGrounded := true }
          else b4
        else b1
      if b2.isGrounded then
        let frictionForce := b2.friction * (8/10)
        let b5 := { b2 with
            velocity := ⟨b2.velocity.x * (1 - frictionForce), b2.velocity.y⟩ }
        if b5.fixedRotation then b5
        else { b5 with angularVelocity := b5.angularVelocity * (9/10) }
      else b2
    else { b with isGrounded := false }

/-- Whether Physics.checkFloorCollision evaluates Math.random() on this
body (the jitter line runs only in the contact branch, on a downward
velocity, when rotation is not fixed). -/
def floorUsesRand (b : Body) (floorY tolSetting : ℚ) : Bool :=
  b.kind ≠ BodyKind.static &&
  (floorY - (if tolSetting = 0 then 1 else tolSetting) ≤
      b.position.y + b.height / 2 : Bool) &&
  (0 < b.velocity.y : Bool) &&
  !b.fixedRotation

/-- Physics.updateSleepState: thresholds 3 (linear), 0.05 (angular),
timeout 1.0 s. -/
def updateSleepState (sqrt : ℚ → ℚ) (b : Body) (dt : ℚ) : Body :=
  if b.kind ≠ BodyKind.dynamic then b
  else
    let totalVelocity :=
      sqrt (b.velocity.x * b.velocity.x + b.velocity.y * b.velocity.y)
    if totalVelocity < 3 ∧ |b.angularVelocity| < 1/20 then
      let t := b.sleepTimer + dt
      if 1 < t then
        { b with sleepTimer := t, isSleeping := true,
                 velocity := ⟨0, 0⟩, angularVelocity := 0 }
      else { b with sleepTimer := t }
    else { b with sleepTimer := 0, isSleeping := false }

/-- Physics.resolveCollision: center-to-center normal (guarded against
zero distance), 50/50 positional separation applied to dynamic sides,
impulse with the min of the restitutions, contact records appended to
both bodies. -/
def resolveCollision (sqrt : ℚ → ℚ) (a b : Body) : Body × Body :=
  if a.kind = BodyKind.static ∧ b.kind = BodyKind.static then (a, b)
  else
    let dx := b.position.x - a.position.x
    let dy := b.position.y - a.position.y
    let distance := sqrt (dx * dx + dy * dy)
    if distance = 0 then (a, b)
    else
      let normal : Vec2 := ⟨dx / distance, dy / distance⟩
      let overlapX := (a.width + b.width) / 2 - |dx|
      let overlapY := (a.height + b.height) / 2 - |dy|
      if 0 < overlapX ∧ 0 < overlapY then
        let separationX := overlapX * (1/2) * jsSign dx
        let separationY := overlapY * (1/2) * jsSign dy
        let a1 :=
          if a.kind = BodyKind.dynamic then
            { a with position := ⟨a.position.x - separationX,
                                  a.position.y - separationY⟩ }
          else a
        let b1 :=
          if b.kind = BodyKind.dynamic then
            { b with position := ⟨b.position.x + separationX,
                                  b.position.y + separationY⟩ }
          else b
        let relVel : Vec2 := ⟨b1.velocity.x - a1.velocity.x,
                              b1.velocity.y - a1.velocity.y⟩
        let velocityAlongNormal := relVel.x * normal.x + relVel.y * normal.y
        if 0 < velocityAlongNormal then (a1, b1)
        else
          let restitution := min a1.restitution b1.restitution
          let impulseScalar :=
            -(1 + restitution) * velocityAlongNormal /
              (1 / a1.mass + 1 / b1.mass)
          let impulse : Vec2 := ⟨impulseScalar * normal.x,
                                 impulseScalar * normal.y⟩
          let a2 :=
            if a1.kind = BodyKind.dynamic then
              { a1 with velocity := ⟨a1.velocity.x - impulse.x / a1.mass,
                                     a1.velocity.y - impulse.y / a1.mass⟩ }
            else a1
          let b2 :=
            if b1.kind = BodyKind.dynamic then
              { b1 with velocity := ⟨b1.velocity.x + impulse.x / b1.mass,
                                     b1.velocity.y + impulse.y / b1.mass⟩ }
            else b1
          let a3 := { a2 with frameContacts := a2.frameContacts + 1,
                              contactCount := a2.contactCount + 1 }
          let b3 := { b2 with frameContacts := b2.frameContacts + 1,
                              contactCount := b2.contactCount + 1 }
          (a3, b3)
      else (a, b)

/-- Physics.checkBodyCollision: collision-group masks, then AABB overlap
within the tolerance, then resolveCollision. -/
def checkBodyCollision (sqrt : ℚ → ℚ) (a b : Body) (tolSetting : ℚ) :
    Body × Body :=
  if a.collisionGroup &&& b.collidesWith = 0 ∨
     b.collisionGroup &&& a.collidesWith = 0 then (a, b)
  else
    let aLeft := a.position.x - a.width / 2
    let aRight := a.position.x + a.width / 2
    let aTop := a.position.y - a.height / 2
    let aBottom := a.position.y + a.height / 2
    let bLeft := b.position.x - b.width / 2
    let bRight := b.position.x + b.width / 2
    let bTop := b.position.y - b.height / 2
    let bBottom := b.position.y + b.height / 2
    let tolerance := if tolSetting = 0 then 1 else tolSetting
    if aLeft < bRight + tolerance ∧ bLeft - tolerance < aRight ∧
       aTop < bBottom + tolerance ∧ bTop - tolerance < aBottom then
      resolveCollision sqrt a b
    else (a, b)

/-- The JOINT_TYPES of the source. -/
inductive JointKind where
  | distance
  | spring
  | pivot
  | weld
deriving DecidableEq

/-- A joint of the Enhanced engine.  The source stores direct references
to the two body objects held in MiniNewton.bodies; the embedding stores
their indices `a` and `b` into that list. -/
structure Joint where
  jkind : JointKind
  a : ℕ
  b : ℕ
  anchorA : Vec2
  anchorB : Vec2
  targetDistance : ℚ
  stiffness : ℚ
  damping : ℚ
deriving DecidableEq

/-- Joints.updateDistanceJoint: positional correction of half the
error times stiffness along the center line, applied to each dynamic
side, skipped when the centers coincide. -/
def updateDistanceJoint (sqrt : ℚ → ℚ) (A B : Body)
    (targetDistance stiffness : ℚ) : Body × Body :=
  let dx := B.position.x - A.position.x
  let dy := B.position.y - A.position.y
  let currentDistance := sqrt (dx * dx + dy * dy)
  if currentDistance = 0 then (A, B)
  else
    let difference := currentDistance - targetDistance
    let correctionFactor := difference * stiffness * (1/2)
    let normalX := dx / currentDistance
    let normalY := dy / currentDistance
    let correctionX := normalX * correctionFactor
    let correctionY := normalY * correctionFactor
    let A1 :=
      if A.kind = BodyKind.dynamic then
        { A with position := ⟨A.position.x + correctionX,
                              A.position.y + correctionY⟩ }
      else A
    let B1 :=
      if B.kind = BodyKind.dynamic then
        { B with position := ⟨B.position.x - correctionX,
                              B.position.y - correctionY⟩ }
      else B
    (A1, B1)

/-- Joints.updateSpringJoint: Hooke force into acceleration plus a
velocity damping factor, both only on dynamic sides. -/
def updateSpringJoint (sqrt : ℚ → ℚ) (A B : Body)
    (targetDistance stiffness damping : ℚ) : Body × Body :=
  let dx := B.position.x - A.position.x
  let dy := B.position.y - A.position.y
  let currentDistance := sqrt (dx * dx + dy * dy)
  if currentDistance = 0 then (A, B)
  else
    let springForce := (currentDistance - targetDistance) * stiffness
    let dampingForce := damping
    let normalX := dx / currentDistance
    let normalY := dy / currentDistance
    let forceX := normalX * springForce
    let forceY := normalY * springForce
    let A1 :=
      if A.kind = BodyKind.dynamic then
        { A with
            acceleration := ⟨A.acceleration.x + forceX / A.mass,
                             A.acceleration.y + forceY / A.mass⟩,
            velocity := ⟨A.velocity.x * (1 - dampingForce),
                         A.velocity.y * (1 - dampingForce)⟩ }
      else A
    let B1 :=
      if B.kind = BodyKind.dynamic then
        { B with
            acceleration := ⟨B.acceleration.x - forceX / B.mass,
                             B.acceleration.y - forceY / B.mass⟩,
            velocity := ⟨B.velocity.x * (1 - dampingForce),
                         B.velocity.y * (1 - dampingForce)⟩ }
      else B
    (A1, B1)

/-- Joints.updatePivotJoint: drives the dynamic bodyB toward bodyA's
anchor, scaled by half the stiffness. -/
def updatePivotJoint (A B : Body) (anchorA anchorB : Vec2)
    (stiffness : ℚ) : Body × Body :=
  let targetX := A.position.x + anchorA.x
  let targetY := A.position.y + anchorA.y
  let dx := targetX - (B.position.x + anchorB.x)
  let dy := targetY - (B.position.y + anchorB.y)
  let correctionFactor := stiffness * (1/2)
  let B1 :=
    if B.kind = BodyKind.dynamic then
      { B with position := ⟨B.position.x + dx * correctionFactor,
                            B.position.y + dy * correctionFactor⟩ }
    else B
  (A, B1)

/-- Joints.updateWeldJoint: the dynamic side snaps to a fixed offset
from the static side and its velocity is zeroed; other combinations are
untouched. -/
def updateWeldJoint (A B : Body) (anchorA anchorB : Vec2) : Body × Body :=
  if A.kind = BodyKind.static ∧ B.kind = BodyKind.dynamic then
    let p : Vec2 := ⟨A.position.x + anchorA.x, A.position.y + anchorA.y⟩
    (A, { B with position := p, velocity := ⟨0, 0⟩ })
  else if B.kind = BodyKind.static ∧ A.kind = BodyKind.dynamic then
    let p : Vec2 := ⟨B.position.x + anchorB.x, B.position.y + anchorB.y⟩
    ({ A with position := p, velocity := ⟨0, 0⟩ }, B)
  else (A, B)

/-- Apply one joint of Joints.updateJoints to the body list. -/
def jointStep (sqrt : ℚ → ℚ) (bodies : List Body) (j : Joint) : List Body :=
  match bodies[j.a]?, bodies[j.b]? with
  | some A, some B =>
      let p :=
        match j.jkind with
        | JointKind.distance => updateDistanceJoint sqrt A B j.targetDistance j.stiffness
        | JointKind.spring =>
            updateSpringJoint sqrt A B j.targetDistance j.stiffness j.damping
        | JointKind.pivot => updatePivotJoint A B j.anchorA j.anchorB j.stiffness
        | JointKind.weld => updateWeldJoint A B j.anchorA j.anchorB
      (bodies.set j.a p.1).set j.b p.2
  | _, _ => bodies

/-- Joints.updateJoints: apply every joint in creation order. -/
def updateJoints (sqrt : ℚ → ℚ) (joints : List Joint) (bodies : List Body) :
    List Body :=
  joints.foldl (jointStep sqrt) bodies

/-- The ordered list of index pairs (i, j) with i < j < n, as visited by
the nested collision loops of MiniNewton.simulate. -/
def pairsUpTo (n : ℕ) : List (ℕ × ℕ) :=
  (List.range n).flatMap fun i =>
    (List.range (n - i - 1)).map fun k => (i, i + 1 + k)

/-- One pairwise pass of the inter-body collision phase. -/
def collisionStep (sqrt : ℚ → ℚ) (tolSetting : ℚ) (bodies : List Body)
    (ij : ℕ × ℕ) : List Body :=
  match bodies[ij.1]?, bodies[ij.2]? with
  | some A, some B =>
      let p := checkBodyCollision sqrt A B tolSetting
      (bodies.set ij.1 p.1).set ij.2 p.2
  | _, _ => bodies

/-- The inter-body collision phase of MiniNewton.simulate. -/
def collisionPhase (sqrt : ℚ → ℚ) (tolSetting : ℚ) (bodies : List Body) :
    List Body :=
  (pairsUpTo bodies.length).foldl (collisionStep sqrt tolSetting) bodies

/-- The per-body portion of one frame of MiniNewton.simulate: clear the
frame's contacts, apply gravity and damping, integrate, resolve the
floor, and update the sleep state when enabled.  Returns the body plus
the advanced Math.random cursor. -/
def stepBody (s : Settings) (sqrt : ℚ → ℚ) (rng : ℕ → ℚ) (b : Body)
    (k : ℕ) : Body × ℕ :=
  let b0 := { b with frameContacts := 0 }
  let b1 := applyGravity b0 s.gravityVector
  let b2 := applyDamping b1 s.damping
  let b3 := updatePosition b2 s.dt
  let used := floorUsesRand b3 s.floorY s.collisionTolerance
  let b4 := checkFloorCollision b3 s.floorY s.bounce s.collisionTolerance (rng k)
  let b5 := if s.enableSleeping then updateSleepState sqrt b4 s.dt else b4
  (b5, if used then k + 1 else k)

/-- stepBody mapped over the body list, threading the random cursor. -/
def stepBodies (s : Settings) (sqrt : ℚ → ℚ) (rng : ℕ → ℚ) :
    List Body → ℕ → List Body × ℕ
  | [], k => ([], k)
  | b :: rest, k =>
      let p := stepBody s sqrt rng b k
      let q := stepBodies s sqrt rng rest p.2
      (p.1 :: q.1, q.2)

/-- One whole frame of MiniNewton.simulate: per-body updates, then the
optional inter-body collision pass, then the joint pass. -/
def framePhase (s : Settings) (sqrt : ℚ → ℚ) (rng : ℕ → ℚ)
    (joints : List Joint) (st : List Body × ℕ) : List Body × ℕ :=
  let p := stepBodies s sqrt rng st.1 st.2
  let bs1 :=
    if s.enableInterBodyCollision then
      collisionPhase sqrt s.collisionTolerance p.1
    else p.1
  let bs2 := updateJoints sqrt joints bs1
  (bs2, p.2)

/-- A per-frame trajectory record of MiniNewton.simulate's
simulationData. -/
structure Sample where
  position : Vec2
  rotation : ℚ
  time : ℚ
  sleeping : Bool
deriving DecidableEq

/-- The sample MiniNewton.simulate stores for a body at the end of a
frame. -/
def sampleOf (dt : ℚ) (frame : ℕ) (b : Body) : Sample :=
  ⟨b.position, b.rotation, (frame : ℚ) * dt, b.isSleeping⟩

/-- Run `fuel` frames starting at frame index `frame`, collecting the
per-frame sample lists (indexed frame-first, body-second). -/
def runFrames (s : Settings) (sqrt : ℚ → ℚ) (rng : ℕ → ℚ)
    (joints : List Joint) : ℕ → ℕ → List Body × ℕ → List (List Sample)
  | 0, _, _ => []
  | fuel + 1, frame, st =>
      let st1 := framePhase s sqrt rng joints st
      st1.1.map (sampleOf s.dt frame) :: runFrames s sqrt rng joints fuel (frame + 1) st1

/-- MiniNewton.simulate of the Enhanced engine: floor(duration *
frameRate) frames over the registered bodies and joints; returns the
trajectory buffer, one sample list per frame.  A run with no bodies
aborts without producing data. -/
def simulate (s : Settings) (sqrt : ℚ → ℚ) (rng : ℕ → ℚ)
    (bodies : List Body) (joints : List Joint) : List (List Sample) :=
  if bodies.isEmpty then []
  else runFrames s sqrt rng joints (⌊s.duration * s.frameRate⌋.toNat) 0 (bodies, 0)

/-- Material presets of the Enhanced engine. -/
structure MaterialProps where
  density : ℚ
  restitution : ℚ
  friction : ℚ
deriving DecidableEq

/-- Physics.materials lookup, with the JavaScript
`materials[name] || materials.default` fallback for unknown names. -/
def materialProps (m : String) : MaterialProps :=
  if m = "rubber" then ⟨9/10, 9/10, 7/10⟩
  else if m = "metal" then ⟨78/10, 3/10, 1/10⟩
  else if m = "wood" then ⟨6/10, 5/10, 8/10⟩
  else if m = "ice" then ⟨92/100, 1/10, 2/100⟩
  else if m = "concrete" then ⟨24/10, 2/10, 9/10⟩
  else if m = "glass" then ⟨25/10, 1/10, 4/10⟩
  else ⟨1, 8/10, 3/10⟩

/-- Physics.createBody of the Enhanced engine, from the layer data it
reads (dimensions, scale percentages, transform) and the settings'
material, bounce and friction (the latter two optional overrides as in
the source's `settings.bounce !== undefined` tests). -/
def createBody (layerWidth layerHeight scaleX scaleY posX posY rot : ℚ)
    (material : String) (bounce friction : Option ℚ) (kind : BodyKind) :
    Body :=
  let width := layerWidth * scaleX / 100
  let height := layerHeight * scaleY / 100
  let area := width / 100 * (height / 100)
  let props := materialProps material
  let baseMass := max (area * props.density) (1/10)
  { kind := kind
    position := ⟨posX, posY⟩
    velocity := ⟨0, 0⟩
    acceleration := ⟨0, 0⟩
    rotation := rot
    angularVelocity := 0
    angularAcceleration := 0
    mass := baseMass
    width := width
    height := height
    restitution := bounce.getD props.restitution
    friction := friction.getD props.friction
    isGrounded := false
    isSleeping := false
    sleepTimer := 0
    fixedRotation := false
    gravityScale := 1
    linearDamping := 1/100
    angularDamping := 1/20
    collisionGroup := 1
    collidesWith := 31
    frameContacts := 0
    contactCount := 0 }

end Enh

/-!
## The Phase-1 engine (physics.js with the frame loop of the companion
main module)

Namespace `P1` embeds the Physics module of physics.js and the per-body
frame step of the Phase-1 MiniNewton.simulate, whose loop skips a
sleeping body entirely while still storing a trajectory sample for it.
-/
namespace P1

/-- A physics body as built by Physics.createBody in physics.js (this
engine has no body-type field; the layer reference is omitted). -/
structure Body where
  position : Vec2
  velocity : Vec2
  acceleration : Vec2
  rotation : ℚ
  angularVelocity : ℚ
  mass : ℚ
  width : ℚ
  height : ℚ
  restitution : ℚ
  friction : ℚ
  density : ℚ
  isGrounded : Bool
  isSleeping : Bool
  sleepTimer : ℚ
deriving DecidableEq

/-- Physics.applyGravity of physics.js (vector form): skipped while
grounded; note the source multiplies the gravity vector by deltaTime
when accumulating it into the acceleration. -/
def applyGravity (b : Body) (gravityVector : Vec2) (dt : ℚ) : Body :=
  if b.isGrounded then b
  else
    { b with acceleration := ⟨b.acceleration.x + gravityVector.x * dt,
                              b.acceleration.y + gravityVector.y * dt⟩ }

/-- Physics.applyDamping of physics.js. -/
def applyDamping (b : Body) (damping : ℚ) : Body :=
  { b with
      velocity := ⟨b.velocity.x * damping, b.velocity.y * damping⟩,
      angularVelocity := b.angularVelocity * damping }

/-- Physics.updatePosition of physics.js. -/
def updatePosition (b : Body) (dt : ℚ) : Body :=
  let v : Vec2 := ⟨b.velocity.x + b.acceleration.x * dt,
                   b.velocity.y + b.acceleration.y * dt⟩
  let p : Vec2 := ⟨b.position.x + v.x * dt, b.position.y + v.y * dt⟩
  { b with velocity := v, position := p,
           rotation := b.rotation + b.angularVelocity * dt,
           acceleration := ⟨0, 0⟩ }

/-- Physics.checkFloorCollision of physics.js: no tolerance, reflection
by the global bounce factor, grounding threshold 10, ground friction
0.9 / 0.95. -/
def checkFloorCollision (b : Body) (floorY bounce rand : ℚ) : Body :=
  let bodyBottom := b.position.y + b.height / 2
  if floorY ≤ bodyBottom then
    let b1 := { b with position := ⟨b.position.x, floorY - b.height / 2⟩ }
    let b2 :=
      if 0 < b1.velocity.y then
        let b3 := { b1 with velocity := ⟨b1.velocity.x, -b1.velocity.y * bounce⟩ }
        let impactStrength := |b3.velocity.y|
        let b4 := { b3 with angularVelocity :=
                      b3.angularVelocity + (rand - 1/2) * impactStrength * (1/10) }
        if |b4.velocity.y| < 10 then
          { b4 with velocity := ⟨b4.velocity.x, 0⟩, isGrounded := true }
        else { b4 with isGrounded := false }
      else b1
    if b2.isGrounded then
      { b2 with velocity := ⟨b2.velocity.x * (9/10), b2.velocity.y⟩,
                angularVelocity := b2.angularVelocity * (95/100) }
    else b2
  else { b with isGrounded := false }

/-- Physics.applyMaterialFriction of physics.js (the contact normal
argument is unused by the source). -/
def applyMaterialFriction (b : Body) (contactNormal : Vec2) (dt : ℚ) : Body :=
  if b.isGrounded ∨ b.isSleeping then
    let frictionForce := b.friction * (b.mass * 980)
    if 1/10 < |b.velocity.x| then
      let dir : ℚ := if 0 < b.velocity.x then -1 else 1
      let vx := b.velocity.x + dir * frictionForce * dt / b.mass
      let vx1 := if |vx| < 1 then 0 else vx
      { b with velocity := ⟨vx1, b.velocity.y⟩ }
    else b
  else b

/-- Physics.updateSleepState of physics.js: thresholds 5 (linear),
0.1 (angular), timeout 1.0 s. -/
def updateSleepState (sqrt : ℚ → ℚ) (b : Body) (dt : ℚ) : Body :=
  let totalVelocity :=
    sqrt (b.velocity.x * b.velocity.x + b.velocity.y * b.velocity.y)
  if totalVelocity < 5 ∧ |b.angularVelocity| < 1/10 then
    let t := b.sleepTimer + dt
    if 1 < t then
      { b with sleepTimer := t, isSleeping := true,
               velocity := ⟨0, 0⟩, angularVelocity := 0 }
    else { b with sleepTimer := t }
  else { b with sleepTimer := 0, isSleeping := false }

/-- A trajectory record of the Phase-1 simulate (this engine's samples
carry no sleeping flag). -/
structure Sample where
  position : Vec2
  rotation : ℚ
  time : ℚ
deriving DecidableEq

/-- Settings of the Phase-1 engine read by the per-body frame step. -/
structure Settings where
  gravityVector : Vec2
  bounce : ℚ
  floorY : ℚ
  damping : ℚ
  enableSleeping : Bool
deriving DecidableEq

/-- The per-body step of one frame of the Phase-1 MiniNewton.simulate:
when sleeping is enabled and the body sleeps, the body is skipped
entirely and a sample of its current pose is stored; otherwise the full
gravity / damping / integration / floor / material-friction / sleep
pipeline runs and the resulting pose is sampled. -/
def stepBodyFrame (s : Settings) (sqrt : ℚ → ℚ) (rand : ℚ) (dt : ℚ)
    (frame : ℕ) (b : Body) : Body × Sample :=
  if s.enableSleeping ∧ b.isSleeping then
    (b, ⟨b.position, b.rotation, (frame : ℚ) * dt⟩)
  else
    let b1 := applyGravity b s.gravityVector dt
    let b2 := applyDamping b1 s.damping
    let b3 := updatePosition b2 dt
    let b4 := checkFloorCollision b3 s.floorY s.bounce rand
    let b5 := applyMaterialFriction b4 ⟨0, -1⟩ dt
    let b6 := if s.enableSleeping then updateSleepState sqrt b5 dt else b5
    (b6, ⟨b6.position, b6.rotation, (frame : ℚ) * dt⟩)

end P1

/-!
## The standalone joints module and the Phase-1 joint creation entry

Namespace `J0` embeds the Joints module (createJoint, calculateDistance
and applyDistanceJoint) together with the Phase-1
MiniNewton.createJoint wrapper that validates body indices.  Joints of
this module hold the two body values; optional fields mirror the
JavaScript `options` object, whose absent entries are `undefined`.
-/
namespace J0

/-- A joint record as built by the standalone Joints.createJoint (the
random string id is omitted). -/
structure JointP where
  jtype : String
  bodyA : P1.Body
  bodyB : P1.Body
  anchorA : Vec2
  anchorB : Vec2
  enabled : Bool
  damping : ℚ
  strength : Option ℚ
  targetDistance : ℚ
  springConstant : Option ℚ
  restLength : Option ℚ
  pivotPoint : Vec2
  lastDistance : ℚ
  impulseAccumulator : Vec2
deriving DecidableEq

/-- The options bag accepted by Joints.createJoint. -/
structure JointOptions where
  anchorA : Option Vec2 := none
  anchorB : Option Vec2 := none
  damping : Option ℚ := none
  strength : Option ℚ := none
  targetDistance : Option ℚ := none
  springConstant : Option ℚ := none
  restLength : Option ℚ := none
  pivotPoint : Option Vec2 := none
deriving DecidableEq

/-- Whether a joint-type name is a key of Joints.jointTypes. -/
def validType (t : String) : Bool :=
  t = "distance" ∨ t = "pivot" ∨ t = "spring" ∨ t = "weld"

/-- The default damping of Joints.jointTypes for each type name. -/
def defaultDamping (t : String) : ℚ :=
  if t = "distance" then 1/10
  else if t = "pivot" then 1/20
  else if t = "spring" then 2/10
  else 0

/-- The default strength of Joints.jointTypes (the spring entry has
none). -/
def defaultStrength (t : String) : Option ℚ :=
  if t = "spring" then none else some 1

/-- The default spring constant of Joints.jointTypes. -/
def defaultSpringConstant (t : String) : Option ℚ :=
  if t = "spring" then some 100 else none

/-- The default rest length of Joints.jointTypes. -/
def defaultRestLength (t : String) : Option ℚ :=
  if t = "spring" then some 100 else none

/-- Joints.calculateDistance. -/
def calculateDistance (sqrt : ℚ → ℚ) (bodyA bodyB : P1.Body) : ℚ :=
  let dx := bodyB.position.x - bodyA.position.x
  let dy := bodyB.position.y - bodyA.position.y
  sqrt (dx * dx + dy * dy)

/-- Joints.createJoint: rejects a missing body or an unknown type name
with null, otherwise builds the joint record; `targetDistance` uses the
JavaScript `options.targetDistance || calculateDistance(...)` fallback
(also taken when the option is the falsy 0). -/
def createJoint (sqrt : ℚ → ℚ) (bodyA bodyB : Option P1.Body) (t : String)
    (options : JointOptions) : Option JointP :=
  match bodyA, bodyB with
  | some A, some B =>
      if validType t then
        let td :=
          match options.targetDistance with
          | some v => if v = 0 then calculateDistance sqrt A B else v
          | none => calculateDistance sqrt A B
        some
          { jtype := t
            bodyA := A
            bodyB := B
            anchorA := options.anchorA.getD ⟨0, 0⟩
            anchorB := options.anchorB.getD ⟨0, 0⟩
            enabled := true
            damping := options.damping.getD (defaultDamping t)
            strength := (options.strength.map some).getD (defaultStrength t)
            targetDistance := td
            springConstant :=
              (options.springConstant.map some).getD (defaultSpringConstant t)
            restLength := (options.restLength.map some).getD (defaultRestLength t)
            pivotPoint := options.pivotPoint.getD
              ⟨(A.position.x + B.position.x) / 2, (A.position.y + B.position.y) / 2⟩
            lastDistance := 0
            impulseAccumulator := ⟨0, 0⟩ }
      else none
  | _, _ => none

/-- JavaScript array indexing with a possibly negative integer index:
out-of-bounds reads yield undefined. -/
def listGetI (l : List P1.Body) (i : ℤ) : Option P1.Body :=
  if h : 0 ≤ i ∧ i < (l.length : ℤ) then
    some (l.get ⟨i.toNat, by omega⟩)
  else none

/-- Outcome of the Phase-1 MiniNewton.createJoint: the index-range
check fails with an error dialog, the inner Joints.createJoint guard
fails silently (returning false), or a joint is created and pushed. -/
inductive CreateResult where
  | errored
  | failed
  | created (j : JointP)
deriving DecidableEq

/-- The Phase-1 MiniNewton.createJoint: indices at or above the body
count are rejected with an error dialog before anything is built; the
bodies are then read by index (negative indices read undefined) and
handed to Joints.createJoint, whose null result leaves the joint list
untouched; a created joint is pushed onto it. -/
def createJointM (sqrt : ℚ → ℚ) (bodies : List P1.Body)
    (joints : List JointP) (ia ib : ℤ) (t : String)
    (options : JointOptions) : CreateResult × List JointP :=
  if (bodies.length : ℤ) ≤ ia ∨ (bodies.length : ℤ) ≤ ib then
    (CreateResult.errored, joints)
  else
    match createJoint sqrt (listGetI bodies ia) (listGetI bodies ib) t options with
    | some j => (CreateResult.created j, joints ++ [j])
    | none => (CreateResult.failed, joints)

/-- Joints.applyDistanceJoint of the standalone module: positional
correction with NO body-type guard (this engine's bodies carry no
type), plus a relative-velocity damping term. -/
def applyDistanceJoint (sqrt : ℚ → ℚ) (j : JointP) (dt : ℚ) :
    P1.Body × P1.Body :=
  let A := j.bodyA
  let B := j.bodyB
  let dx := B.position.x - A.position.x
  let dy := B.position.y - A.position.y
  let currentDistance := sqrt (dx * dx + dy * dy)
  if currentDistance < 1/1000 then (A, B)
  else
    let error := currentDistance - j.targetDistance
    let correctionFactor := error / currentDistance * j.strength.getD 0
    let relVelX := B.velocity.x - A.velocity.x
    let relVelY := B.velocity.y - A.velocity.y
    let dampingForceX := relVelX * j.damping
    let dampingForceY := relVelY * j.damping
    let correctionX := dx / currentDistance * correctionFactor * (1/2)
    let correctionY := dy / currentDistance * correctionFactor * (1/2)
    let A1 := { A with position :=
        ⟨A.position.x + (correctionX - dampingForceX * dt),
         A.position.y + (correctionY - dampingForceY * dt)⟩ }
    let B1 := { B with position :=
        ⟨B.position.x - (correctionX + dampingForceX * dt),
         B.position.y - (correctionY + dampingForceY * dt)⟩ }
    (A1, B1)

end J0

/-!
## The Final engine (MiniNewton_Final.jsx)

Namespace `FinalE` embeds the mass calculation and the joint update of
MiniNewton_Final.jsx.  Its updateJoints computes the connecting normal
as dx / distance with no zero-distance guard; the embedding therefore
also tracks, alongside the updated bodies, whether any division with a
zero denominator was performed during the pass.
-/
namespace FinalE

/-- MiniNewton.calculateMass of the Final engine: area scaled by the
squared percentage scale, divided by 10000, clamped below by 1 (not by
0.1, and with no material density factor). -/
def calculateMass (layerWidth layerHeight scaleX scaleY : ℚ) : ℚ :=
  let area := layerWidth * layerHeight
  let scaledArea := area * (scaleX / 100) * (scaleY / 100)
  max 1 (scaledArea / 10000)

/-- A body of the Final engine (fields read by updateJoints). -/
structure Body where
  position : Vec2
  velocity : Vec2
  acceleration : Vec2
  mass : ℚ
deriving DecidableEq

/-- A joint of the Final engine, holding indices into the body list. -/
structure JointF where
  jtype : String
  a : ℕ
  b : ℕ
  stiffness : ℚ
  damping : ℚ
  restLength : ℚ
deriving DecidableEq

/-- One joint pass of MiniNewton.updateJoints of the Final engine.  The
Bool records whether a division by zero was performed (the normal
components dx / distance and dy / distance with distance = 0, or a
force divided by a zero mass). -/
def updateJointStep (sqrt : ℚ → ℚ) (st : List Body × Bool) (j : JointF) :
    List Body × Bool :=
  let bodies := st.1
  match bodies[j.a]?, bodies[j.b]? with
  | some A, some B =>
      let dx := B.position.x - A.position.x
      let dy := B.position.y - A.position.y
      let distance := sqrt (dx * dx + dy * dy)
      if j.jtype = "distance" ∨ j.jtype = "spring" then
        let difference := distance - j.restLength
        let force := difference * j.stiffness
        let nx := dx / distance
        let ny := dy / distance
        let A1 := { A with acceleration :=
            ⟨A.acceleration.x + nx * force / A.mass,
             A.acceleration.y + ny * force / A.mass⟩ }
        let B1 := { B with acceleration :=
            ⟨B.acceleration.x - nx * force / B.mass,
             B.acceleration.y - ny * force / B.mass⟩ }
        let divZero := distance = 0 ∨ A.mass = 0 ∨ B.mass = 0
        ((bodies.set j.a A1).set j.b B1, st.2 || decide divZero)
      else (bodies, st.2)
  | _, _ => (bodies, st.2)

/-- MiniNewton.updateJoints of the Final engine over all joints,
returning the updated bodies and the division-by-zero flag. -/
def updateJoints (sqrt : ℚ → ℚ) (bodies : List Body)
    (joints : List JointF) : List Body × Bool :=
  joints.foldl (updateJointStep sqrt) (bodies, false)

end FinalE

/-!
## Concrete fixtures

Default body records used by the concrete evaluations below; each use
site overrides the fields it cares about.
-/

/-- A default Enhanced-engine body (the values Physics.createBody fills
in for a dynamic body of the default material, 100 x 100 px at the
origin). -/
def baseBody : Enh.Body :=
  { kind := Enh.BodyKind.dynamic
    position := ⟨0, 0⟩
    velocity := ⟨0, 0⟩
    acceleration := ⟨0, 0⟩
    rotation := 0
    angularVelocity := 0
    angularAcceleration := 0
    mass := 1
    width := 100
    height := 100
    restitution := 8/10
    friction := 3/10
    isGrounded := false
    isSleeping := false
    sleepTimer := 0
    fixedRotation := false
    gravityScale := 1
    linearDamping := 1/100
    angularDamping := 1/20
    collisionGroup := 1
    collidesWith := 31
    frameContacts := 0
    contactCount := 0 }

/-- A default Phase-1 body. -/
def baseBodyP1 : P1.Body :=
  { position := ⟨0, 0⟩
    velocity := ⟨0, 0⟩
    acceleration := ⟨0, 0⟩
    rotation := 0
    angularVelocity := 0
    mass := 1
    width := 100
    height := 100
    restitution := 8/10
    friction := 3/10
    density := 1
    isGrounded := false
    isSleeping := false
    sleepTimer := 0 }

/-- A default Final-engine body. -/
def baseBodyF : FinalE.Body :=
  { position := ⟨100, 100⟩
    velocity := ⟨0, 0⟩
    acceleration := ⟨0, 0⟩
    mass := 1 }

/-!
## C1: the floor-collision step of the kernel
-/

/-- C1.  The Enhanced kernel's floor-collision step, for a dynamic body
whose bottom edge has reached floorY minus the effective collision
tolerance: the position is clamped so the bottom edge equals floorY
exactly; an upward or zero vertical velocity is left unchanged; a
downward vertical velocity (velocity.y > 0) is reflected to
-velocity.y * (body.restitution * global bounce) — the multiplicative
combination — and only then, if the reflected speed is below the
grounding threshold 5, zeroed with the body marked grounded. -/
theorem c1_floor_collision_clamp_and_reflect
    (b : Enh.Body) (floorY globalBounce tolSetting rand : ℚ)
    (hk : b.kind = Enh.BodyKind.dynamic)
    (hre : 0 ≤ b.restitution) (hbo : 0 ≤ globalBounce)
    (hbot : floorY - (if tolSetting = 0 then 1 else tolSetting) ≤
      b.position.y + b.height / 2) :
    (Enh.checkFloorCollision b floorY globalBounce tolSetting rand).position.y +
        b.height / 2 = floorY ∧
    (b.velocity.y ≤ 0 →
      (Enh.checkFloorCollision b floorY globalBounce tolSetting rand).velocity.y =
        b.velocity.y) ∧
    (0 < b.velocity.y →
      (5 ≤ b.velocity.y * (b.restitution * globalBounce) →
        (Enh.checkFloorCollision b floorY globalBounce tolSetting rand).velocity.y =
          -(b.velocity.y * (b.restitution * globalBounce))) ∧
      (b.velocity.y * (b.restitution * globalBounce) < 5 →
        (Enh.checkFloorCollision b floorY globalBounce tolSetting rand).velocity.y = 0 ∧
        (Enh.checkFloorCollision b floorY globalBounce tolSetting rand).isGrounded =
          true)) := by
  have hns : ¬ b.kind = Enh.BodyKind.static := by rw [hk]; intro h; cases h
  have habs : 0 < b.velocity.y →
      |(-b.velocity.y * (b.restitution * globalBounce))| =
        b.velocity.y * (b.restitution * globalBounce) := by
    intro hv
    rw [neg_mul, abs_neg, abs_of_nonneg]
    positivity
  simp only [Enh.checkFloorCollision]
  rw [if_neg hns, if_pos hbot]
  refine ⟨?_, ?_, ?_⟩
  · split_ifs <;> simp
  · intro hv
    rw [if_neg (not_lt.mpr hv)]
    split_ifs <;> simp
  · intro hv
    have hvr := habs hv
    rw [if_pos (show 0 <
      ({b with position := ⟨b.position.x, floorY - b.height / 2⟩} :
        Enh.Body).velocity.y from hv)]
    constructor
    · intro h5
      split_ifs <;> first
        | (exfalso; rw [hvr] at *; linarith)
        | simp_all [neg_mul]
    · intro h5
      split_ifs <;> first
        | (exfalso; rw [hvr] at *; linarith)
        | simp_all [neg_mul]

/-- A dynamic body touching the floor band with downward velocity 20
and restitution 1/2, used to evaluate the floor-collision step. -/
def bC1 : Enh.Body :=
  { baseBody with position := ⟨0, 960⟩, velocity := ⟨0, 20⟩, restitution := 1/2 }

/-- Witness for C1: at floorY = 1000 with global bounce 1 and tolerance
1, the clamped bottom edge of the concrete body bC1 equals floorY. -/
theorem c1_witness :
    (Enh.checkFloorCollision bC1 1000 1 1 0).position.y + bC1.height / 2 = 1000 :=
  (c1_floor_collision_clamp_and_reflect bC1 1000 1 1 0 (by decide)
    (by norm_num [bC1, baseBody]) (by norm_num) (by norm_num [bC1, baseBody])).1

/-!
## C3: body mass derivation
-/

/-- C3 (amended).  Bodies created by the Enhanced kernel's
Physics.createBody have mass exactly max(area x materialDensity, 0.1),
where area is the scaled layer extent converted to scene (meter) units,
and this mass is positive for every input, including degenerate
zero-area layers; the Final engine's calculateMass uses the different
formula max(1, scaledArea / 10000) but is likewise always positive. -/
theorem c3_mass_formula_and_positivity
    (lw lh sx sy px py rot : ℚ) (mat : String) (bounce friction : Option ℚ)
    (kind : Enh.BodyKind) (fw fh fsx fsy : ℚ) :
    (Enh.createBody lw lh sx sy px py rot mat bounce friction kind).mass =
      max (lw * sx / 100 / 100 * (lh * sy / 100 / 100) *
        (Enh.materialProps mat).density) (1/10) ∧
    0 < (Enh.createBody lw lh sx sy px py rot mat bounce friction kind).mass ∧
    0 < FinalE.calculateMass fw fh fsx fsy := by
  refine ⟨rfl, ?_, ?_⟩
  · exact lt_of_lt_of_le (by norm_num)
      (le_max_right (lw * sx / 100 / 100 * (lh * sy / 100 / 100) *
        (Enh.materialProps mat).density) (1/10))
  · exact lt_of_lt_of_le one_pos
      (le_max_left 1 (fw * fh * (fsx / 100) * (fsy / 100) / 10000))

/-- Counterexample for C3 as stated: the Final engine's calculateMass
on a degenerate zero-area layer returns 1, not the claimed
max(area x materialDensity, 0.1) = 0.1. -/
theorem c3_counterexample :
    FinalE.calculateMass 0 0 100 100 = 1 ∧
    max ((0 : ℚ) * (Enh.materialProps "default").density) (1/10) = 1/10 ∧
    (1 : ℚ) ≠ 1/10 := by
  refine ⟨?_, ?_, by norm_num⟩
  · unfold FinalE.calculateMass
    norm_num
  · rw [zero_mul]
    exact max_eq_right (by norm_num)

/-!
## C10: gravity accumulation on sleeping bodies
-/

/-- C10 (amended).  While a dynamic body is sleeping, a frame's gravity
step still adds the scaled gravity vector into its acceleration
whenever the grounded guard does not fire (the body is not grounded
with downward gravity) and its gravity scale is nonzero; the sleeping
early-return of the position update leaves the body — acceleration
included — completely unchanged, so the accumulated acceleration is
never cleared; and on a frame where the body is awake the position
update integrates the whole accumulated acceleration into the velocity
in the single timestep dt and only then resets it to zero. -/
theorem c10_sleeping_acceleration_accumulation
    (b : Enh.Body) (g : Vec2) (dt : ℚ) (hs : b.isSleeping = true) :
    (b.kind = Enh.BodyKind.dynamic → ¬(b.isGrounded = true ∧ 0 < g.y) →
      b.gravityScale ≠ 0 →
      (Enh.applyGravity b g).acceleration =
        ⟨b.acceleration.x + g.x * b.gravityScale,
         b.acceleration.y + g.y * b.gravityScale⟩) ∧
    Enh.updatePosition b dt = b ∧
    (∀ c : Enh.Body, c.isSleeping = false → ¬c.kind = Enh.BodyKind.static →
      (Enh.updatePosition c dt).velocity =
        ⟨c.velocity.x + c.acceleration.x * dt,
         c.velocity.y + c.acceleration.y * dt⟩ ∧
      (Enh.updatePosition c dt).acceleration = ⟨0, 0⟩) := by
  refine ⟨?_, ?_, ?_⟩
  · intro hdyn hg hgs
    simp only [Enh.applyGravity]
    rw [if_neg (by simp [hdyn]), if_neg (by simpa using hg), if_neg hgs]
  · simp only [Enh.updatePosition]
    split_ifs <;> simp_all
  · intro c hcs hck
    simp only [Enh.updatePosition]
    rw [if_neg hck, if_neg (by simp [hcs])]
    exact ⟨rfl, rfl⟩

/-- A sleeping, ungrounded dynamic body for the C10 witness. -/
def bC10 : Enh.Body := { baseBody with isSleeping := true }

/-- Witness for C10: with gravity (0, 980) the sleeping ungrounded body
bC10 accumulates 980 into acceleration.y, and the position update
leaves it untouched. -/
theorem c10_witness :
    (Enh.applyGravity bC10 ⟨0, 980⟩).acceleration = ⟨0, 980⟩ ∧
    Enh.updatePosition bC10 (1/30) = bC10 := by
  have h := c10_sleeping_acceleration_accumulation bC10 ⟨0, 980⟩ (1/30) (by decide)
  refine ⟨?_, h.2.1⟩
  rw [h.1 (by decide) (by decide) (by decide)]
  simp only [Vec2.mk.injEq, bC10, baseBody]
  norm_num

/-- A sleeping grounded dynamic body used to refute C10 as stated. -/
def bC10g : Enh.Body := { baseBody with isSleeping := true, isGrounded := true }

/-- Counterexample for C10 as stated: for a sleeping dynamic body that
is grounded under downward gravity (0, 980) — the usual state of a body
that fell asleep resting on the floor — the gravity step adds nothing:
applyGravity returns the body unchanged, though the claimed update
would change acceleration.y by 980 x gravityScale. -/
theorem c10_counterexample :
    bC10g.isSleeping = true ∧ bC10g.kind = Enh.BodyKind.dynamic ∧
    bC10g.gravityScale = 1 ∧
    Enh.applyGravity bC10g ⟨0, 980⟩ = bC10g ∧
    bC10g.acceleration.y + 980 * bC10g.gravityScale ≠ bC10g.acceleration.y := by
  refine ⟨by decide, by decide, by decide, rfl, by norm_num [bC10g, baseBody]⟩

/-!
## C4: sleeping bodies are frozen but still sampled (Phase-1 loop)
-/

/-- C4.  In the Phase-1 frame loop, a body that is sleeping at the
start of a frame (with sleeping enabled) is skipped by the whole
gravity / damping / integration / floor-collision pipeline — the frame
step returns it completely unchanged — and a trajectory sample equal to
its current pose (position, rotation, frame time) is still recorded for
that frame. -/
theorem c4_sleeping_body_frozen_but_sampled
    (s : P1.Settings) (sq : ℚ → ℚ) (rand dt : ℚ) (frame : ℕ) (b : P1.Body)
    (hen : s.enableSleeping = true) (hs : b.isSleeping = true) :
    P1.stepBodyFrame s sq rand dt frame b =
      (b, ⟨b.position, b.rotation, (frame : ℚ) * dt⟩) := by
  unfold P1.stepBodyFrame
  rw [if_pos ⟨hen, hs⟩]

/-- Phase-1 settings used by the concrete evaluations. -/
def sP1 : P1.Settings :=
  { gravityVector := ⟨0, 980⟩, bounce := 8/10, floorY := 1000,
    damping := 99/100, enableSleeping := true }

/-- A sleeping Phase-1 body. -/
def bC4 : P1.Body := { baseBodyP1 with isSleeping := true }

/-- Witness for C4: the concrete sleeping body bC4 passes frame 3
unchanged while producing the sample of its pose at time 3 * dt. -/
theorem c4_witness :
    P1.stepBodyFrame sP1 ratSqrt 0 (1/30) 3 bC4 =
      (bC4, ⟨bC4.position, bC4.rotation, (3 : ℚ) * (1/30)⟩) :=
  c4_sleeping_body_frozen_but_sampled sP1 ratSqrt 0 (1/30) 3 bC4
    (by decide) (by decide)

/-!
## Preservation machinery for the Enhanced frame loop

`Pres u v` says that v arose from u by steps that never change a body's
kind or extents and never move a static body: the kind and height
agree, and if u is static then so do position and rotation.  All phases
of the Enhanced frame preserve this relation pointwise on the body
list, which yields both the static-body immobility of C5 and the
kind/height stability needed for the floor-containment induction of C2.
-/

/-- Step relation: kind and height are preserved, and a static body
keeps its position and rotation. -/
def Pres (u v : Enh.Body) : Prop :=
  v.kind = u.kind ∧ v.height = u.height ∧
  (u.kind = Enh.BodyKind.static → v.position = u.position ∧ v.rotation = u.rotation)

theorem presRefl (u : Enh.Body) : Pres u u := ⟨rfl, rfl, fun _ => ⟨rfl, rfl⟩⟩

theorem presTrans {u v w : Enh.Body} (h1 : Pres u v) (h2 : Pres v w) :
    Pres u w := by
  obtain ⟨k1, h1h, p1⟩ := h1
  obtain ⟨k2, h2h, p2⟩ := h2
  refine ⟨k2.trans k1, h2h.trans h1h, fun hs => ?_⟩
  obtain ⟨pa, ra⟩ := p1 hs
  obtain ⟨pb, rb⟩ := p2 (k1.trans hs)
  exact ⟨pb.trans pa, rb.trans ra⟩

theorem presApplyGravity (b : Enh.Body) (g : Vec2) :
    Pres b (Enh.applyGravity b g) := by
  simp only [Enh.applyGravity]
  split_ifs <;> exact ⟨rfl, rfl, fun _ => ⟨rfl, rfl⟩⟩

theorem presApplyDamping (b : Enh.Body) (d : ℚ) :
    Pres b (Enh.applyDamping b d) := by
  simp only [Enh.applyDamping]
  split_ifs <;> exact ⟨rfl, rfl, fun _ => ⟨rfl, rfl⟩⟩

theorem presUpdatePosition (b : Enh.Body) (dt : ℚ) :
    Pres b (Enh.updatePosition b dt) := by
  simp only [Enh.updatePosition]
  split_ifs <;> refine ⟨rfl, rfl, fun hs => ?_⟩ <;> simp_all

set_option maxHeartbeats 1000000 in
theorem presCheckFloorCollision (b : Enh.Body) (fy gb tol rand : ℚ) :
    Pres b (Enh.checkFloorCollision b fy gb tol rand) := by
  simp only [Enh.checkFloorCollision]
  by_cases hk : b.kind = Enh.BodyKind.static
  · rw [if_pos hk]
    exact presRefl b
  · rw [if_neg hk]
    split_ifs <;> exact ⟨rfl, rfl, fun hs => absurd hs hk⟩

theorem presUpdateSleepState (sq : ℚ → ℚ) (b : Enh.Body) (dt : ℚ) :
    Pres b (Enh.updateSleepState sq b dt) := by
  simp only [Enh.updateSleepState]
  split_ifs <;> exact ⟨rfl, rfl, fun _ => ⟨rfl, rfl⟩⟩

theorem presStepBody (s : Enh.Settings) (sq : ℚ → ℚ) (rng : ℕ → ℚ)
    (b : Enh.Body) (k : ℕ) : Pres b (Enh.stepBody s sq rng b k).1 := by
  have hreset : Pres b { b with frameContacts := 0 } :=
    ⟨rfl, rfl, fun _ => ⟨rfl, rfl⟩⟩
  simp only [Enh.stepBody]
  split
  · exact presTrans hreset (presTrans (presApplyGravity _ _)
      (presTrans (presApplyDamping _ _) (presTrans (presUpdatePosition _ _)
        (presTrans (presCheckFloorCollision _ _ _ _ _)
          (presUpdateSleepState _ _ _)))))
  · exact presTrans hreset (presTrans (presApplyGravity _ _)
      (presTrans (presApplyDamping _ _) (presTrans (presUpdatePosition _ _)
        (presCheckFloorCollision _ _ _ _ _))))

theorem presResolveCollision (sq : ℚ → ℚ) (a b : Enh.Body) :
    Pres a (Enh.resolveCollision sq a b).1 ∧
    Pres b (Enh.resolveCollision sq a b).2 := by
  simp only [Enh.resolveCollision]
  split_ifs <;>
    constructor <;>
    refine ⟨rfl, rfl, fun hs => ?_⟩ <;> simp_all

theorem presCheckBodyCollision (sq : ℚ → ℚ) (a b : Enh.Body) (tol : ℚ) :
    Pres a (Enh.checkBodyCollision sq a b tol).1 ∧
    Pres b (Enh.checkBodyCollision sq a b tol).2 := by
  simp only [Enh.checkBodyCollision]
  split_ifs <;>
    first
      | exact ⟨presRefl a, presRefl b⟩
      | exact presResolveCollision sq a b

theorem presUpdateDistanceJoint (sq : ℚ → ℚ) (A B : Enh.Body) (t st : ℚ) :
    Pres A (Enh.updateDistanceJoint sq A B t st).1 ∧
    Pres B (Enh.updateDistanceJoint sq A B t st).2 := by
  simp only [Enh.updateDistanceJoint]
  split_ifs <;> constructor <;> refine ⟨rfl, rfl, fun hs => ?_⟩ <;> simp_all

theorem presUpdateSpringJoint (sq : ℚ → ℚ) (A B : Enh.Body) (t st d : ℚ) :
    Pres A (Enh.updateSpringJoint sq A B t st d).1 ∧
    Pres B (Enh.updateSpringJoint sq A B t st d).2 := by
  simp only [Enh.updateSpringJoint]
  split_ifs <;> constructor <;> refine ⟨rfl, rfl, fun hs => ?_⟩ <;> simp_all

theorem presUpdatePivotJoint (A B : Enh.Body) (aA aB : Vec2) (st : ℚ) :
    Pres A (Enh.updatePivotJoint A B aA aB st).1 ∧
    Pres B (Enh.updatePivotJoint A B aA aB st).2 := by
  simp only [Enh.updatePivotJoint]
  split_ifs <;> constructor <;> refine ⟨rfl, rfl, fun hs => ?_⟩ <;> simp_all

theorem presUpdateWeldJoint (A B : Enh.Body) (aA aB : Vec2) :
    Pres A (Enh.updateWeldJoint A B aA aB).1 ∧
    Pres B (Enh.updateWeldJoint A B aA aB).2 := by
  simp only [Enh.updateWeldJoint]
  split_ifs <;> constructor <;> refine ⟨rfl, rfl, fun hs => ?_⟩ <;> simp_all

/-- Pointwise lifting of Pres to body lists. -/
def PresL (bs bs' : List Enh.Body) : Prop :=
  bs'.length = bs.length ∧
  ∀ i (h : i < bs.length) (h' : i < bs'.length),
    Pres (bs.get ⟨i, h⟩) (bs'.get ⟨i, h'⟩)

theorem preslRefl (bs : List Enh.Body) : PresL bs bs :=
  ⟨rfl, fun _ _ _ => presRefl _⟩

theorem preslTrans {bs cs ds : List Enh.Body} (h1 : PresL bs cs)
    (h2 : PresL cs ds) : PresL bs ds := by
  refine ⟨h2.1.trans h1.1, fun i h h' => ?_⟩
  exact presTrans (h1.2 i h (h1.1.symm ▸ h)) (h2.2 i (h1.1.symm ▸ h) h')

theorem preslSetSet (bs : List Enh.Body) (i j : ℕ) (x y : Enh.Body)
    (hx : ∀ h : i < bs.length, Pres (bs.get ⟨i, h⟩) x)
    (hy : ∀ h : j < bs.length, Pres (bs.get ⟨j, h⟩) y) :
    PresL bs ((bs.set i x).set j y) := by
  refine ⟨by simp, fun k hk hk' => ?_⟩
  rcases eq_or_ne k j with rfl | hkj
  · have he : ((bs.set i x).set k y).get ⟨k, hk'⟩ = y := by
      simp only [List.get_eq_getElem]
      exact List.getElem_set_self hk'
    rw [he]
    exact hy hk
  · rcases eq_or_ne k i with rfl | hki
    · have he : ((bs.set k x).set j y).get ⟨k, hk'⟩ = x := by
        simp only [List.get_eq_getElem]
        rw [List.getElem_set_ne (by omega)]
        exact List.getElem_set_self (by simpa using hk)
      rw [he]
      exact hx hk
    · have he : ((bs.set i x).set j y).get ⟨k, hk'⟩ = bs.get ⟨k, hk⟩ := by
        simp only [List.get_eq_getElem]
        rw [List.getElem_set_ne (by omega), List.getElem_set_ne (by omega)]
      rw [he]
      exact presRefl _

theorem preslCons {b x : Enh.Body} {bs xs : List Enh.Body}
    (hb : Pres b x) (hbs : PresL bs xs) : PresL (b :: bs) (x :: xs) := by
  refine ⟨by simp [hbs.1], fun i h h' => ?_⟩
  cases i with
  | zero => exact hb
  | succ n =>
      exact hbs.2 n (Nat.lt_of_succ_lt_succ (by simpa using h))
        (Nat.lt_of_succ_lt_succ (by simpa using h'))

theorem preslStepBodies (s : Enh.Settings) (sq : ℚ → ℚ) (rng : ℕ → ℚ) :
    ∀ (bs : List Enh.Body) (k : ℕ),
      PresL bs (Enh.stepBodies s sq rng bs k).1
  | [], _ => preslRefl []
  | b :: bs, k => by
      simp only [Enh.stepBodies]
      exact preslCons (presStepBody s sq rng b k)
        (preslStepBodies s sq rng bs (Enh.stepBody s sq rng b k).2)

theorem stepBodies_get (s : Enh.Settings) (sq : ℚ → ℚ) (rng : ℕ → ℚ) :
    ∀ (bs : List Enh.Body) (k i : ℕ) (h : i < bs.length)
      (h' : i < (Enh.stepBodies s sq rng bs k).1.length),
      ∃ k', (Enh.stepBodies s sq rng bs k).1.get ⟨i, h'⟩ =
        (Enh.stepBody s sq rng (bs.get ⟨i, h⟩) k').1
  | [], _, i, h, _ => absurd h (by simp)
  | b :: bs, k, 0, _, _ => ⟨k, rfl⟩
  | b :: bs, k, i + 1, h, h' => by
      have h2 : i < (Enh.stepBodies s sq rng bs
          (Enh.stepBody s sq rng b k).2).1.length := by
        have hl := h'
        simp only [Enh.stepBodies] at hl
        simpa using hl
      obtain ⟨k', hk⟩ := stepBodies_get s sq rng bs (Enh.stepBody s sq rng b k).2
        i (Nat.lt_of_succ_lt_succ (by simpa using h)) h2
      exact ⟨k', hk⟩

theorem preslFoldl {α : Type} (f : List Enh.Body → α → List Enh.Body)
    (hf : ∀ (bs : List Enh.Body) (a : α), PresL bs (f bs a)) :
    ∀ (l : List α) (bs : List Enh.Body), PresL bs (List.foldl f bs l)
  | [], bs => preslRefl bs
  | a :: l, bs => preslTrans (hf bs a) (preslFoldl f hf l (f bs a))

theorem preslCollisionStep (sq : ℚ → ℚ) (tol : ℚ) (bs : List Enh.Body)
    (ij : ℕ × ℕ) : PresL bs (Enh.collisionStep sq tol bs ij) := by
  unfold Enh.collisionStep
  rcases hA : bs[ij.1]? with _ | A
  · simp only [hA]
    exact preslRefl bs
  · rcases hB : bs[ij.2]? with _ | B
    · simp only [hA, hB]
      exact preslRefl bs
    · simp only [hA, hB]
      obtain ⟨hla, hea⟩ := List.getElem?_eq_some.mp hA
      obtain ⟨hlb, heb⟩ := List.getElem?_eq_some.mp hB
      refine preslSetSet bs ij.1 ij.2 _ _ (fun h => ?_) (fun h => ?_)
      · have : bs.get ⟨ij.1, h⟩ = A := by simpa [List.get_eq_getElem] using hea
        rw [this]
        exact (presCheckBodyCollision sq A B tol).1
      · have : bs.get ⟨ij.2, h⟩ = B := by simpa [List.get_eq_getElem] using heb
        rw [this]
        exact (presCheckBodyCollision sq A B tol).2

theorem preslJointStep (sq : ℚ → ℚ) (bs : List Enh.Body) (j : Enh.Joint) :
    PresL bs (Enh.jointStep sq bs j) := by
  unfold Enh.jointStep
  rcases hA : bs[j.a]? with _ | A
  · simp only [hA]
    exact preslRefl bs
  · rcases hB : bs[j.b]? with _ | B
    · simp only [hA, hB]
      exact preslRefl bs
    · simp only [hA, hB]
      obtain ⟨hla, hea⟩ := List.getElem?_eq_some.mp hA
      obtain ⟨hlb, heb⟩ := List.getElem?_eq_some.mp hB
      refine preslSetSet bs j.a j.b _ _ (fun h => ?_) (fun h => ?_) <;>
        rcases j.jkind with _ | _ | _ | _
      · have he : bs.get ⟨j.a, h⟩ = A := by simpa [List.get_eq_getElem] using hea
        rw [he]
        exact (presUpdateDistanceJoint sq A B j.targetDistance j.stiffness).1
      · have he : bs.get ⟨j.a, h⟩ = A := by simpa [List.get_eq_getElem] using hea
        rw [he]
        exact (presUpdateSpringJoint sq A B j.targetDistance j.stiffness j.damping).1
      · have he : bs.get ⟨j.a, h⟩ = A := by simpa [List.get_eq_getElem] using hea
        rw [he]
        exact (presUpdatePivotJoint A B j.anchorA j.anchorB j.stiffness).1
      · have he : bs.get ⟨j.a, h⟩ = A := by simpa [List.get_eq_getElem] using hea
        rw [he]
        exact (presUpdateWeldJoint A B j.anchorA j.anchorB).1
      · have he : bs.get ⟨j.b, h⟩ = B := by simpa [List.get_eq_getElem] using heb
        rw [he]
        exact (presUpdateDistanceJoint sq A B j.targetDistance j.stiffness).2
      · have he : bs.get ⟨j.b, h⟩ = B := by simpa [List.get_eq_getElem] using heb
        rw [he]
        exact (presUpdateSpringJoint sq A B j.targetDistance j.stiffness j.damping).2
      · have he : bs.get ⟨j.b, h⟩ = B := by simpa [List.get_eq_getElem] using heb
        rw [he]
        exact (presUpdatePivotJoint A B j.anchorA j.anchorB j.stiffness).2
      · have he : bs.get ⟨j.b, h⟩ = B := by simpa [List.get_eq_getElem] using heb
        rw [he]
        exact (presUpdateWeldJoint A B j.anchorA j.anchorB).2

theorem preslUpdateJoints (sq : ℚ → ℚ) (js : List Enh.Joint)
    (bs : List Enh.Body) : PresL bs (Enh.updateJoints sq js bs) :=
  preslFoldl (Enh.jointStep sq) (preslJointStep sq) js bs

theorem preslCollisionPhase (sq : ℚ → ℚ) (tol : ℚ) (bs : List Enh.Body) :
    PresL bs (Enh.collisionPhase sq tol bs) :=
  preslFoldl (Enh.collisionStep sq tol) (preslCollisionStep sq tol)
    (Enh.pairsUpTo bs.length) bs

theorem preslFramePhase (s : Enh.Settings) (sq : ℚ → ℚ) (rng : ℕ → ℚ)
    (joints : List Enh.Joint) (st : List Enh.Body × ℕ) :
    PresL st.1 (Enh.framePhase s sq rng joints st).1 := by
  unfold Enh.framePhase
  refine preslTrans (preslStepBodies s sq rng st.1 st.2) ?_
  refine preslTrans ?_ (preslUpdateJoints sq joints _)
  split
  · exact preslCollisionPhase sq s.collisionTolerance _
  · exact preslRefl _

/-!
## C5: static bodies never move
-/

/-- C5.  In the Enhanced engine's frame (per-body integration and floor
collision, the inter-body collision pass, and every joint correction),
a body of kind Static keeps its position and rotation exactly; and the
distance-joint solver applies no position correction to either side
whose kind is not Dynamic — so Static and Kinematic bodies receive no
distance-joint correction. -/
theorem c5_static_bodies_never_move
    (s : Enh.Settings) (sq : ℚ → ℚ) (rng : ℕ → ℚ) (joints : List Enh.Joint)
    (bodies : List Enh.Body) (k i : ℕ) (h : i < bodies.length)
    (hst : (bodies.get ⟨i, h⟩).kind = Enh.BodyKind.static) :
    (∃ h' : i < (Enh.framePhase s sq rng joints (bodies, k)).1.length,
      ((Enh.framePhase s sq rng joints (bodies, k)).1.get ⟨i, h'⟩).position =
        (bodies.get ⟨i, h⟩).position ∧
      ((Enh.framePhase s sq rng joints (bodies, k)).1.get ⟨i, h'⟩).rotation =
        (bodies.get ⟨i, h⟩).rotation) ∧
    (∀ (A B : Enh.Body) (td stiff : ℚ), ¬A.kind = Enh.BodyKind.dynamic →
      (Enh.updateDistanceJoint sq A B td stiff).1.position = A.position) ∧
    (∀ (A B : Enh.Body) (td stiff : ℚ), ¬B.kind = Enh.BodyKind.dynamic →
      (Enh.updateDistanceJoint sq A B td stiff).2.position = B.position) := by
  refine ⟨?_, ?_, ?_⟩
  · have hp := preslFramePhase s sq rng joints (bodies, k)
    have h' : i < (Enh.framePhase s sq rng joints (bodies, k)).1.length := by
      rw [hp.1]
      exact h
    exact ⟨h', (hp.2 i h h').2.2 hst⟩
  · intro A B td stiff hA
    simp only [Enh.updateDistanceJoint]
    split_ifs <;> simp_all
  · intro A B td stiff hB
    simp only [Enh.updateDistanceJoint]
    split_ifs <;> simp_all

/-- A static body at a recognizable position. -/
def bC5 : Enh.Body := { baseBody with kind := Enh.BodyKind.static, position := ⟨5, 7⟩ }

/-- Settings used by the concrete Enhanced frame evaluations. -/
def sC5 : Enh.Settings :=
  { gravityVector := ⟨0, 980⟩, bounce := 8/10, floorY := 1000, duration := 1,
    frameRate := 30, damping := 99/100, collisionTolerance := 1, timeScale := 1,
    enableInterBodyCollision := true, enableSleeping := true }

/-- A distance joint between bodies 0 and 1 used by the concrete frame
evaluations. -/
def jC5 : Enh.Joint :=
  { jkind := Enh.JointKind.distance, a := 0, b := 1, anchorA := ⟨0, 0⟩,
    anchorB := ⟨0, 0⟩, targetDistance := 100, stiffness := 1, damping := 1/10 }

/-- Witness for C5: across a whole concrete frame — with collisions
enabled and a distance joint attached to it — the static body bC5 keeps
position (5, 7) and rotation 0. -/
theorem c5_witness :
    ∃ h' : 0 < (Enh.framePhase sC5 ratSqrt (fun _ => 0) [jC5]
        ([bC5, baseBody], 0)).1.length,
      ((Enh.framePhase sC5 ratSqrt (fun _ => 0) [jC5]
          ([bC5, baseBody], 0)).1.get ⟨0, h'⟩).position = bC5.position ∧
      ((Enh.framePhase sC5 ratSqrt (fun _ => 0) [jC5]
          ([bC5, baseBody], 0)).1.get ⟨0, h'⟩).rotation = bC5.rotation :=
  (c5_static_bodies_never_move sC5 ratSqrt (fun _ => 0) [jC5] [bC5, baseBody]
    0 0 (by simp) (by decide)).1

/-!
## C2: floor containment
-/

/-- After the Enhanced floor-collision step, a non-static body's bottom
edge never lies below floorY (clamped onto the floor inside the
tolerance band, strictly above it outside). -/
theorem checkFloor_bottom (c : Enh.Body) (fy gb tol rand : ℚ)
    (hns : ¬c.kind = Enh.BodyKind.static) (htol : 0 ≤ tol) :
    (Enh.checkFloorCollision c fy gb tol rand).position.y +
      (Enh.checkFloorCollision c fy gb tol rand).height / 2 ≤ fy := by
  have hte : 0 ≤ (if tol = 0 then 1 else tol) := by
    split_ifs with h
    · norm_num
    · exact htol
  simp only [Enh.checkFloorCollision]
  rw [if_neg hns]
  by_cases hb : fy - (if tol = 0 then 1 else tol) ≤ c.position.y + c.height / 2
  · rw [if_pos hb]
    split_ifs <;> simp
  · rw [if_neg hb]
    push_neg at hb
    dsimp only
    linarith

/-- The sleep update never moves a body or changes its extents. -/
theorem sleep_pos_height (sq : ℚ → ℚ) (c : Enh.Body) (dt : ℚ) :
    (Enh.updateSleepState sq c dt).position = c.position ∧
    (Enh.updateSleepState sq c dt).height = c.height := by
  simp only [Enh.updateSleepState]
  split_ifs <;> exact ⟨rfl, rfl⟩

/-- After the whole per-body phase of a frame, a non-static body's
bottom edge is at or above floorY. -/
theorem stepBody_bottom (s : Enh.Settings) (sq : ℚ → ℚ) (rng : ℕ → ℚ)
    (b : Enh.Body) (k : ℕ)
    (hd : ¬b.kind = Enh.BodyKind.static) (htol : 0 ≤ s.collisionTolerance) :
    ((Enh.stepBody s sq rng b k).1).position.y +
      ((Enh.stepBody s sq rng b k).1).height / 2 ≤ s.floorY := by
  have hk3 : ¬(Enh.updatePosition (Enh.applyDamping (Enh.applyGravity
      { b with frameContacts := 0 } s.gravityVector) s.damping) s.dt).kind =
      Enh.BodyKind.static := by
    rw [(presUpdatePosition _ _).1, (presApplyDamping _ _).1,
      (presApplyGravity _ _).1]
    exact hd
  have hfl := checkFloor_bottom
    (Enh.updatePosition (Enh.applyDamping (Enh.applyGravity
      { b with frameContacts := 0 } s.gravityVector) s.damping) s.dt)
    s.floorY s.bounce s.collisionTolerance (rng k) hk3 htol
  simp only [Enh.stepBody]
  split
  · rcases sleep_pos_height sq (Enh.checkFloorCollision
        (Enh.updatePosition (Enh.applyDamping (Enh.applyGravity
          { b with frameContacts := 0 } s.gravityVector) s.damping) s.dt)
        s.floorY s.bounce s.collisionTolerance (rng k)) s.dt with ⟨hp, hh⟩
    rw [hp, hh]
    exact hfl
  · exact hfl

/-- With no joints and inter-body collisions disabled, a frame is just
the per-body phase. -/
theorem framePhase_no_joints (s : Enh.Settings) (sq : ℚ → ℚ) (rng : ℕ → ℚ)
    (st : List Enh.Body × ℕ)
    (hcol : s.enableInterBodyCollision = false) :
    (Enh.framePhase s sq rng [] st).1 = (Enh.stepBodies s sq rng st.1 st.2).1 := by
  unfold Enh.framePhase Enh.updateJoints
  simp [hcol]

/-- Frame induction for C2: in a run with no joints and collisions
disabled, every recorded sample of a body that started dynamic has its
bottom edge at or above floorY. -/
theorem runFrames_bottom (s : Enh.Settings) (sq : ℚ → ℚ) (rng : ℕ → ℚ)
    (hcol : s.enableInterBodyCollision = false)
    (htol : 0 ≤ s.collisionTolerance) (bodies0 : List Enh.Body) :
    ∀ (fuel frame : ℕ) (st : List Enh.Body × ℕ), PresL bodies0 st.1 →
      ∀ fs ∈ Enh.runFrames s sq rng [] fuel frame st,
      ∀ (i : ℕ) (hi : i < bodies0.length) (hi' : i < fs.length),
        (bodies0.get ⟨i, hi⟩).kind = Enh.BodyKind.dynamic →
        (fs.get ⟨i, hi'⟩).position.y + (bodies0.get ⟨i, hi⟩).height / 2 ≤
          s.floorY := by
  intro fuel
  induction fuel with
  | zero =>
      intro frame st hp fs hfs
      simp [Enh.runFrames] at hfs
  | succ n ih =>
      intro frame st hp fs hfs i hi hi' hdyn
      simp only [Enh.runFrames] at hfs
      rcases List.mem_cons.mp hfs with h1 | h2
      · subst h1
        have hfp := framePhase_no_joints s sq rng st hcol
        have hplen : st.1.length = bodies0.length := hp.1
        have hslen : ((Enh.stepBodies s sq rng st.1 st.2).1).length =
            st.1.length := (preslStepBodies s sq rng st.1 st.2).1
        have hib : i < ((Enh.stepBodies s sq rng st.1 st.2).1).length := by
          omega
        have hsti : i < st.1.length := by omega
        have hgm : ((Enh.framePhase s sq rng [] st).1.map
              (Enh.sampleOf s.dt frame)).get ⟨i, hi'⟩ =
            Enh.sampleOf s.dt frame
              ((Enh.stepBodies s sq rng st.1 st.2).1.get ⟨i, hib⟩) := by
          simp only [List.get_eq_getElem, List.getElem_map]
          congr 1
          simp only [hfp]
        rw [hgm]
        obtain ⟨k', hk⟩ := stepBodies_get s sq rng st.1 st.2 i hsti hib
        rw [hk]
        have hkind : (st.1.get ⟨i, hsti⟩).kind =
            (bodies0.get ⟨i, hi⟩).kind := (hp.2 i hi hsti).1
        have hnst : ¬(st.1.get ⟨i, hsti⟩).kind = Enh.BodyKind.static := by
          rw [hkind, hdyn]
          intro hcontra
          cases hcontra
        have hb := stepBody_bottom s sq rng (st.1.get ⟨i, hsti⟩) k' hnst htol
        have hheights : ((Enh.stepBody s sq rng (st.1.get ⟨i, hsti⟩) k').1).height
            = (bodies0.get ⟨i, hi⟩).height := by
          rw [(presStepBody s sq rng (st.1.get ⟨i, hsti⟩) k').2.1,
            (hp.2 i hi hsti).2.1]
        rw [← hheights]
        exact hb
      · exact ih (frame + 1) (Enh.framePhase s sq rng [] st)
          (preslTrans hp (preslFramePhase s sq rng [] st)) fs h2 i hi hi' hdyn

/-- C2 (amended).  For a completed Enhanced run with no joints and
inter-body collision disabled (and a non-negative collision tolerance),
every trajectory sample recorded for a dynamic body satisfies
position.y + height/2 <= floorY: the per-frame floor clamp runs last
among the position-changing steps, so no recorded bottom edge ever
lies below the floor. -/
theorem c2_floor_containment_without_joints
    (s : Enh.Settings) (sq : ℚ → ℚ) (rng : ℕ → ℚ) (bodies : List Enh.Body)
    (hcol : s.enableInterBodyCollision = false)
    (htol : 0 ≤ s.collisionTolerance)
    (fs : List Enh.Sample) (hfs : fs ∈ Enh.simulate s sq rng bodies [])
    (i : ℕ) (hi : i < bodies.length) (hi' : i < fs.length)
    (hdyn : (bodies.get ⟨i, hi⟩).kind = Enh.BodyKind.dynamic) :
    (fs.get ⟨i, hi'⟩).position.y + (bodies.get ⟨i, hi⟩).height / 2 ≤
      s.floorY := by
  unfold Enh.simulate at hfs
  split at hfs
  · simp at hfs
  · exact runFrames_bottom s sq rng hcol htol bodies _ 0 (bodies, 0)
      (preslRefl bodies) fs hfs i hi hi' hdyn

/-- Settings for the concrete one-frame runs: one frame of one second,
no inter-body collisions, sleeping off. -/
def sC2 : Enh.Settings :=
  { gravityVector := ⟨0, 980⟩, bounce := 8/10, floorY := 1000, duration := 1,
    frameRate := 1, damping := 99/100, collisionTolerance := 1, timeScale := 1,
    enableInterBodyCollision := false, enableSleeping := false }

/-- A dynamic body resting exactly on the floor (bottom edge 1000),
with gravity scale 0 so no force acts on it. -/
def bC2 : Enh.Body := { baseBody with position := ⟨0, 950⟩, gravityScale := 0 }

/-- A static anchor placed far below the floor. -/
def bStC2 : Enh.Body :=
  { baseBody with kind := Enh.BodyKind.static, position := ⟨0, 2000⟩ }

/-- A stiffness-1 distance joint of rest length 100 between bodies 0
and 1. -/
def jC2 : Enh.Joint :=
  { jkind := Enh.JointKind.distance, a := 0, b := 1, anchorA := ⟨0, 0⟩,
    anchorB := ⟨0, 0⟩, targetDistance := 100, stiffness := 1, damping := 1/10 }

/-- Distinct body kinds, in the rewriting form used to collapse the
kind tests of concrete evaluations. -/
theorem kind_static_ne_dynamic :
    ¬(Enh.BodyKind.static = Enh.BodyKind.dynamic) := by decide

/-- The static kind is not the kinematic kind. -/
theorem kind_static_ne_kinematic :
    ¬(Enh.BodyKind.static = Enh.BodyKind.kinematic) := by decide

/-- The dynamic kind is not the static kind. -/
theorem kind_dynamic_ne_static :
    ¬(Enh.BodyKind.dynamic = Enh.BodyKind.static) := by decide

/-- ratSqrt is exact on the square 1102500 = 1050^2. -/
theorem ratSqrt_1102500 : ratSqrt 1102500 = 1050 := by
  unfold ratSqrt
  norm_num
  have h1 : (1102500 : ℤ).toNat = 1102500 := rfl
  have h2 : (1102500 : ℕ) = 1050 * 1050 := by norm_num
  rw [h1, h2, Nat.sqrt_eq 1050]
  norm_num

/-- Witness for C2: in the concrete joint-free run of the resting body
bC2, the recorded sample keeps the bottom edge at the floor. -/
theorem c2_witness : (950 : ℚ) + 100 / 2 ≤ sC2.floorY := by
  have hsim : Enh.simulate sC2 ratSqrt (fun _ => 0) [bC2] [] =
      [[⟨⟨0, 950⟩, 0, 0, false⟩]] := by
    norm_num [Enh.simulate, Enh.runFrames, Enh.framePhase, Enh.stepBodies,
      Enh.stepBody, Enh.applyGravity, Enh.applyDamping, Enh.updatePosition,
      Enh.checkFloorCollision, Enh.floorUsesRand, Enh.updateJoints,
      Enh.sampleOf, Enh.Settings.dt, sC2, bC2, baseBody]
  have h := c2_floor_containment_without_joints sC2 ratSqrt (fun _ => 0) [bC2]
    rfl (by norm_num [sC2]) [⟨⟨0, 950⟩, 0, 0, false⟩]
    (by rw [hsim]; exact List.mem_singleton.mpr rfl)
    0 (by simp) (by simp) (by decide)
  simpa [bC2, baseBody] using h

/-- Counterexample for C2 as stated: with a stiffness-1 distance joint
anchoring the resting dynamic body bC2 to a static body below the
floor, the joint correction runs after the floor clamp, and the sample
recorded at the end of the very first frame has bottom edge 1475, far
below floorY = 1000 (and beyond any tolerance epsilon of 1). -/
theorem c2_counterexample :
    Enh.simulate sC2 ratSqrt (fun _ => 0) [bC2, bStC2] [jC2] =
      [[⟨⟨0, 1425⟩, 0, 0, false⟩, ⟨⟨0, 2000⟩, 0, 0, false⟩]] ∧
    bC2.kind = Enh.BodyKind.dynamic ∧ bC2.height = 100 ∧
    sC2.floorY = 1000 ∧ ((1000 : ℚ) + 1 < 1425 + 100 / 2) := by
  refine ⟨?_, by decide, by decide, rfl, by norm_num⟩
  norm_num [Enh.simulate, Enh.runFrames, Enh.framePhase, Enh.stepBodies,
    Enh.stepBody, Enh.applyGravity, Enh.applyDamping, Enh.updatePosition,
    Enh.checkFloorCollision, Enh.floorUsesRand, Enh.updateJoints,
    Enh.jointStep, Enh.updateDistanceJoint, Enh.sampleOf, Enh.Settings.dt,
    ratSqrt_1102500, kind_static_ne_dynamic, kind_static_ne_kinematic,
    kind_dynamic_ne_static, sC2, bC2, bStC2, jC2, baseBody]

/-!
## C6: joint-creation index validation (Phase-1 entry point)
-/

/-- C6 (amended).  The Phase-1 MiniNewton.createJoint rejects
out-of-range body indices with no joint added: indices at or above the
body count fail the explicit range check and raise the error dialog,
and negative indices read an undefined body so the inner
Joints.createJoint guard returns null and creation fails.  (Equal
indices, by contrast, pass both checks — see the counterexample.) -/
theorem c6_invalid_indices
    (sq : ℚ → ℚ) (bodies : List P1.Body) (joints : List J0.JointP)
    (ia ib : ℤ) (t : String) (opts : J0.JointOptions) :
    (((bodies.length : ℤ) ≤ ia ∨ (bodies.length : ℤ) ≤ ib) →
      J0.createJointM sq bodies joints ia ib t opts =
        (J0.CreateResult.errored, joints)) ∧
    (ia < (bodies.length : ℤ) → ib < (bodies.length : ℤ) →
      (ia < 0 ∨ ib < 0) →
      J0.createJointM sq bodies joints ia ib t opts =
        (J0.CreateResult.failed, joints)) := by
  constructor
  · intro h
    unfold J0.createJointM
    rw [if_pos h]
  · intro hia hib hneg
    unfold J0.createJointM
    rw [if_neg (by rw [not_or]; exact ⟨not_le.mpr hia, not_le.mpr hib⟩)]
    rcases hneg with h | h
    · have hga : J0.listGetI bodies ia = none := by
        unfold J0.listGetI
        rw [dif_neg]
        rintro ⟨h0, _⟩
        omega
      rw [hga]
      rfl
    · have hgb : J0.listGetI bodies ib = none := by
        unfold J0.listGetI
        rw [dif_neg]
        rintro ⟨h0, _⟩
        omega
      rcases hA : J0.listGetI bodies ia with _ | A <;>
        simp [hA, hgb, J0.createJoint]

/-- A second Phase-1 body, offset from the first. -/
def b1C6 : P1.Body := { baseBodyP1 with position := ⟨10, 0⟩ }

/-- Witness for C6: index 5 on a two-body list is rejected with the
error outcome and the joint list stays empty. -/
theorem c6_witness :
    J0.createJointM ratSqrt [baseBodyP1, b1C6] [] 5 0 "distance" {} =
      (J0.CreateResult.errored, []) :=
  (c6_invalid_indices ratSqrt [baseBodyP1, b1C6] [] 5 0 "distance" {}).1
    (Or.inl (by decide))

/-- ratSqrt maps 0 to 0. -/
theorem ratSqrt_zero : ratSqrt 0 = 0 := by
  unfold ratSqrt
  norm_num

/-- Distinct joint-type names used by the joint-table lookups. -/
theorem str_distance_ne_spring : ¬("distance" = "spring") := by decide

/-- The self-joint silently produced by equal body indices. -/
def jSelf : J0.JointP :=
  { jtype := "distance", bodyA := baseBodyP1, bodyB := baseBodyP1,
    anchorA := ⟨0, 0⟩, anchorB := ⟨0, 0⟩, enabled := true, damping := 1/10,
    strength := some 1, targetDistance := 0, springConstant := none,
    restLength := none, pivotPoint := ⟨0, 0⟩, lastDistance := 0,
    impulseAccumulator := ⟨0, 0⟩ }

/-- Counterexample for C6 as stated: equal body indices (0, 0) are not
rejected — the Phase-1 createJoint silently creates a joint connecting
body 0 to itself (with target distance 0) and pushes it onto the joint
collection. -/
theorem c6_counterexample :
    J0.createJointM ratSqrt [baseBodyP1, b1C6] [] 0 0 "distance" {} =
      (J0.CreateResult.created jSelf, [jSelf]) ∧
    jSelf.bodyA = jSelf.bodyB := by
  refine ⟨?_, rfl⟩
  norm_num [J0.createJointM, J0.createJoint, J0.listGetI, J0.calculateDistance,
    J0.validType, J0.defaultDamping, J0.defaultStrength,
    J0.defaultSpringConstant, J0.defaultRestLength, ratSqrt_zero,
    str_distance_ne_spring, jSelf, baseBodyP1]

/-!
## C7: the unguarded division of the Final engine's joint update
-/

/-- A Final-engine body at position (100, 100). -/
def bF1 : FinalE.Body :=
  { position := ⟨100, 100⟩, velocity := ⟨0, 0⟩, acceleration := ⟨0, 0⟩,
    mass := 1 }

/-- A Final-engine distance joint between bodies 0 and 1. -/
def jF : FinalE.JointF :=
  { jtype := "distance", a := 0, b := 1, stiffness := 1, damping := 1/10,
    restLength := 50 }

/-- C7 (code bug).  In the Final engine's updateJoints, two joined
bodies with coincident centers produce distance = 0, and the normal
components dx / distance and dy / distance are computed with no
zero-distance guard: the pass performs a division by zero instead of
skipping the pair, contradicting the guarded-arithmetic policy that
every sibling engine variant implements. -/
theorem c7_final_updateJoints_divides_by_zero :
    ratSqrt ((bF1.position.x - bF1.position.x) * (bF1.position.x - bF1.position.x) +
      (bF1.position.y - bF1.position.y) * (bF1.position.y - bF1.position.y)) = 0 ∧
    (FinalE.updateJoints ratSqrt [bF1, bF1] [jF]).2 = true := by
  constructor
  · norm_num [ratSqrt_zero]
  · norm_num [FinalE.updateJoints, FinalE.updateJointStep, ratSqrt_zero,
      jF, bF1]

/-!
## C9: determinism of the simulation
-/

/-- C9.  The Enhanced simulation is a pure function of the bodies,
joints, settings, square-root primitive and the injected pseudo-random
stream: two runs whose streams agree on every draw produce identical
trajectory buffers, bit for bit. -/
theorem c9_determinism
    (s : Enh.Settings) (sq : ℚ → ℚ) (bodies : List Enh.Body)
    (joints : List Enh.Joint) (r1 r2 : ℕ → ℚ) (h : ∀ n, r1 n = r2 n) :
    Enh.simulate s sq r1 bodies joints = Enh.simulate s sq r2 bodies joints := by
  have he : r1 = r2 := funext h
  rw [he]

/-- Witness for C9: the constant-zero stream written two different ways
yields identical trajectories for a concrete run. -/
theorem c9_witness :
    Enh.simulate sC2 ratSqrt (fun _ => 0) [bC2] [] =
      Enh.simulate sC2 ratSqrt (fun n => 0 * (n : ℚ)) [bC2] [] :=
  c9_determinism sC2 ratSqrt [bC2] [] (fun _ => 0) (fun n => 0 * (n : ℚ))
    (fun n => by norm_num)

/-!
## C8: distance-joint convergence

For two otherwise-unforced dynamic bodies, a frame's only effect on
their positions is one application of the stiffness-1 distance-joint
correction (gravity scale 0, zero velocities and the floor/collision
steps leave positions fixed, as established for C2/C5); successive
frames are therefore modelled by iterating that correction.
-/

/-- One application of the stiffness-1 distance-joint correction to a
pair of bodies. -/
def djStep (sq : ℚ → ℚ) (t : ℚ) (p : Enh.Body × Enh.Body) :
    Enh.Body × Enh.Body :=
  Enh.updateDistanceJoint sq p.1 p.2 t 1

/-- The joint correction iterated over successive frames. -/
def djIter (sq : ℚ → ℚ) (t : ℚ) : ℕ → Enh.Body × Enh.Body → Enh.Body × Enh.Body
  | 0, p => p
  | n + 1, p => djIter sq t n (djStep sq t p)

/-- Squared center distance of a body pair. -/
def sepSq (p : Enh.Body × Enh.Body) : ℚ :=
  (p.2.position.x - p.1.position.x) * (p.2.position.x - p.1.position.x) +
    (p.2.position.y - p.1.position.y) * (p.2.position.y - p.1.position.y)

/-- The distance-joint constraint error of a pair. -/
def distErr (sq : ℚ → ℚ) (t : ℚ) (p : Enh.Body × Enh.Body) : ℚ :=
  |sq (sepSq p) - t|

/-- One stiffness-1 correction step from any separated configuration
lands the pair exactly at squared distance t^2. -/
theorem djStep_sepSq (sq : ℚ → ℚ) (t : ℚ) (p : Enh.Body × Enh.Body)
    (hA : p.1.kind = Enh.BodyKind.dynamic)
    (hB : p.2.kind = Enh.BodyKind.dynamic)
    (d : ℚ) (hd : sq (sepSq p) = d) (hdpos : 0 < d)
    (hdsq : d * d = sepSq p) :
    sepSq (djStep sq t p) = t * t := by
  obtain ⟨A, B⟩ := p
  simp only [sepSq, djStep, Enh.updateDistanceJoint] at *
  rw [hd, if_neg hdpos.ne', if_pos hA, if_pos hB]
  simp only []
  field_simp
  linear_combination (-4 * t ^ 2) * hdsq

/-- The step preserves the dynamic kinds of both bodies. -/
theorem djStep_kind (sq : ℚ → ℚ) (t : ℚ) (p : Enh.Body × Enh.Body) :
    (djStep sq t p).1.kind = p.1.kind ∧ (djStep sq t p).2.kind = p.2.kind :=
  ⟨(presUpdateDistanceJoint sq p.1 p.2 t 1).1.1,
   (presUpdateDistanceJoint sq p.1 p.2 t 1).2.1⟩

/-- Once the pair sits at squared distance t^2, every further step
keeps it there. -/
theorem djIter_sepSq_fixed (sq : ℚ → ℚ) (t : ℚ) (ht : 0 ≤ t)
    (hst : sq (t * t) = t) :
    ∀ (n : ℕ) (p : Enh.Body × Enh.Body),
      p.1.kind = Enh.BodyKind.dynamic → p.2.kind = Enh.BodyKind.dynamic →
      sepSq p = t * t → sepSq (djIter sq t n p) = t * t
  | 0, p, _, _, hsep => hsep
  | n + 1, p, hA, hB, hsep => by
      rcases eq_or_lt_of_le ht with h0 | hpos
      · have hz : sepSq (djStep sq t p) = t * t := by
          simp only [djStep, Enh.updateDistanceJoint]
          rw [show (p.2.position.x - p.1.position.x) *
                (p.2.position.x - p.1.position.x) +
                (p.2.position.y - p.1.position.y) *
                (p.2.position.y - p.1.position.y) = t * t from hsep]
          rw [hst, if_pos h0.symm]
          exact hsep
        exact djIter_sepSq_fixed sq t ht hst n (djStep sq t p)
          ((djStep_kind sq t p).1.trans hA) ((djStep_kind sq t p).2.trans hB) hz
      · have hz : sepSq (djStep sq t p) = t * t :=
          djStep_sepSq sq t p hA hB t (by rw [hsep, hst]) hpos hsep.symm
        exact djIter_sepSq_fixed sq t ht hst n (djStep sq t p)
          ((djStep_kind sq t p).1.trans hA) ((djStep_kind sq t p).2.trans hB) hz

/-- C8.  For a stiffness-1 distance joint between two dynamic bodies
subject to no other forces (frames modelled as iterated applications of
the Enhanced distance-joint correction), the squared center distance
equals restLength^2 from the first frame on; the constraint error
|currentDistance - restLength| is monotonically non-increasing over
successive frames and is identically 0 after the first frame; and the
inter-body distance never leaves the interval between its initial value
and the rest length — in particular it never overshoots beyond its
initial value. -/
theorem c8_distance_joint_convergence
    (sq : ℚ → ℚ) (t d0 : ℚ) (A B : Enh.Body)
    (hA : A.kind = Enh.BodyKind.dynamic) (hB : B.kind = Enh.BodyKind.dynamic)
    (ht : 0 ≤ t) (hst : sq (t * t) = t)
    (hd : sq (sepSq (A, B)) = d0) (hdpos : 0 < d0)
    (hdsq : d0 * d0 = sepSq (A, B)) :
    (∀ n, 1 ≤ n → sepSq (djIter sq t n (A, B)) = t * t) ∧
    (∀ n, distErr sq t (djIter sq t (n + 1) (A, B)) ≤
      distErr sq t (djIter sq t n (A, B))) ∧
    (∀ n, min d0 t ≤ sq (sepSq (djIter sq t n (A, B))) ∧
      sq (sepSq (djIter sq t n (A, B))) ≤ max d0 t) := by
  have hstep : sepSq (djStep sq t (A, B)) = t * t :=
    djStep_sepSq sq t (A, B) hA hB d0 hd hdpos hdsq
  have hk1 : (djStep sq t (A, B)).1.kind = Enh.BodyKind.dynamic :=
    (djStep_kind sq t (A, B)).1.trans hA
  have hk2 : (djStep sq t (A, B)).2.kind = Enh.BodyKind.dynamic :=
    (djStep_kind sq t (A, B)).2.trans hB
  have hone : ∀ n, 1 ≤ n → sepSq (djIter sq t n (A, B)) = t * t := by
    intro n hn
    rcases n with _ | m
    · omega
    · exact djIter_sepSq_fixed sq t ht hst m (djStep sq t (A, B)) hk1 hk2 hstep
  refine ⟨hone, ?_, ?_⟩
  · intro n
    have he : distErr sq t (djIter sq t (n + 1) (A, B)) = 0 := by
      unfold distErr
      rw [hone (n + 1) (by omega), hst]
      simp
    rw [he]
    exact abs_nonneg _
  · intro n
    rcases n with _ | m
    · unfold djIter
      rw [hd]
      exact ⟨min_le_left d0 t, le_max_left d0 t⟩
    · rw [hone (m + 1) (by omega), hst]
      exact ⟨min_le_right d0 t, le_max_right d0 t⟩

/-- A dynamic body 5 units below the first, for the concrete
distance-joint run. -/
def bB8 : Enh.Body := { baseBody with position := ⟨0, 5⟩ }

/-- ratSqrt is exact on 9 = 3^2. -/
theorem ratSqrt_nine : ratSqrt (3 * 3) = 3 := by
  unfold ratSqrt
  norm_num
  have h1 : (9 : ℤ).toNat = 9 := rfl
  have h2 : (9 : ℕ) = 3 * 3 := by norm_num
  rw [h1, h2, Nat.sqrt_eq 3]
  norm_num

/-- ratSqrt is exact on 25 = 5^2. -/
theorem ratSqrt_25 : ratSqrt 25 = 5 := by
  unfold ratSqrt
  norm_num
  have h1 : (25 : ℤ).toNat = 25 := rfl
  have h2 : (25 : ℕ) = 5 * 5 := by norm_num
  rw [h1, h2, Nat.sqrt_eq 5]
  norm_num

/-- Witness for C8: two dynamic bodies starting 5 apart with rest
length 3 sit at squared distance 9 after one frame. -/
theorem c8_witness :
    sepSq (djIter ratSqrt 3 1 (baseBody, bB8)) = 3 * 3 :=
  (c8_distance_joint_convergence ratSqrt 3 5 baseBody bB8 (by decide)
    (by decide) (by norm_num) ratSqrt_nine
    (by norm_num [sepSq, bB8, baseBody]; exact ratSqrt_25)
    (by norm_num) (by norm_num [sepSq, bB8, baseBody])).1 1 (by omega)

end MiniNewton
